import Mathlib

/-!
Verification of the per-packet header-parsing / mutation / forwarding core of
the xdp-tutorial packet programs.

A packet buffer is modelled as a `List Nat` of bytes (`ctx->data` at index 0,
`ctx->data_end` at index `pkt.length`).  A header cursor is a `Nat` offset
into that list.  Multi-byte header fields are stored in network byte order
(big-endian) in the buffer, matching the wire format; `bpf_ntohs`/`bpf_htons`
on a little-endian host correspond to reading/writing the big-endian value.
The XDP verdicts `XDP_PASS`, `XDP_DROP`, `XDP_TX` and the redirect verdict are
modelled by the inductive `Verdict`.

External kernel facilities (the FIB resolver behind `bpf_fib_lookup`, the
head-resize helper `bpf_xdp_adjust_head`, the statistics map behind
`xdp_stats_record_action`) are modelled as oracle parameters, per the spec's
external-interface section.
-/

/-- Read the byte at offset `i` of the buffer (defaults to 0; every use in the
embedded code is guarded by the same bounds check the C performs). -/
def byteAt (pkt : List Nat) (i : Nat) : Nat := pkt.getD i 0

/-- Read a 16-bit big-endian (network byte order) field at offset `i`.
This is the host-order value which `bpf_ntohs` yields on a little-endian host,
and the value a stored `__be16` compares equal to under `bpf_htons(K)`. -/
def read16be (pkt : List Nat) (i : Nat) : Nat :=
  byteAt pkt i * 256 + byteAt pkt (i + 1)

/-- Read a 32-bit big-endian (network byte order) field at offset `i`. -/
def read32be (pkt : List Nat) (i : Nat) : Nat :=
  ((byteAt pkt i * 256 + byteAt pkt (i + 1)) * 256 + byteAt pkt (i + 2)) * 256
    + byteAt pkt (i + 3)

/-- Read a 16-bit field at offset `i` as a little-endian host load
(`*(__u16 *)p` on a little-endian machine). -/
def read16le (pkt : List Nat) (i : Nat) : Nat :=
  byteAt pkt i + 256 * byteAt pkt (i + 1)

/-- Overwrite `src.length` bytes of the buffer starting at offset `i`
(an in-bounds `memcpy`; every use in the embedded code is preceded by the
bounds check `i + src.length ≤ pkt.length` that the C performs). -/
def writeBytes (pkt : List Nat) (i : Nat) (src : List Nat) : List Nat :=
  pkt.take i ++ src ++ pkt.drop (i + src.length)

/-- Store a 16-bit value at offset `i` in network byte order
(`bpf_htons` then a 2-byte store); the value is truncated to 16 bits exactly
as the `__u16`/`__be16` store does. -/
def write16be (pkt : List Nat) (i v : Nat) : List Nat :=
  writeBytes pkt i [v % 65536 / 256, v % 256]

/-- Store a 16-bit value at offset `i` as a little-endian host store. -/
def write16le (pkt : List Nat) (i v : Nat) : List Nat :=
  writeBytes pkt i [v % 256, v % 65536 / 256]

/-- `proto_is_vlan` from src/common/parsing_helpers.h: the stored ethertype
equals `bpf_htons(ETH_P_8021Q)` (0x8100) or `bpf_htons(ETH_P_8021AD)`
(0x88A8); the comparison is on the network-order value. -/
def proto_is_vlan (p : Nat) : Bool := p == 0x8100 || p == 0x88A8

/-- `VLAN_MAX_DEPTH` from src/common/parsing_helpers.h. -/
def VLAN_MAX_DEPTH : Nat := 5

/-- The `#pragma unroll` stacked-VLAN loop of `parse_ethhdr`
(src/common/parsing_helpers.h lines 77-87): while fuel remains and the current
ethertype is a VLAN tag type and one whole `vlan_hdr` (4 bytes) fits before
`data_end`, step the tag pointer past the tag and load the tag's encapsulated
ethertype.  Returns the final tag pointer `vlh` and the final ethertype. -/
def vlan_unroll (pkt : List Nat) : Nat → Nat → Nat → Nat × Nat
  | 0, vlh, h_proto => (vlh, h_proto)
  | fuel + 1, vlh, h_proto =>
    if proto_is_vlan h_proto then
      if vlh + 4 ≤ pkt.length then
        vlan_unroll pkt fuel (vlh + 4) (read16be pkt (vlh + 2))
      else (vlh, h_proto)
    else (vlh, h_proto)

/-- `parse_ethhdr` from src/common/parsing_helpers.h: bounds-check the fixed
14-byte Ethernet header, then unroll up to `VLAN_MAX_DEPTH` stacked VLAN tags.
Returns `(bpf_ntohs(h_proto), new cursor)` on success and `(-1, old cursor)`
when the Ethernet header does not fit. -/
def parse_ethhdr (pkt : List Nat) (pos : Nat) : Int × Nat :=
  if pos + 14 > pkt.length then (-1, pos)
  else
    let r := vlan_unroll pkt VLAN_MAX_DEPTH (pos + 14) (read16be pkt (pos + 12))
    ((r.2 : Int), r.1)

/-- `parse_iphdr` from src/common/parsing_helpers.h: check that a fixed
20-byte `struct iphdr` fits, derive the real header size from the IHL field
(the low nibble of byte 0 on a little-endian host, which is the wire IHL
nibble), re-check that extent, then advance by `ihl*4` and return the
`protocol` field (byte 9). -/
def parse_iphdr (pkt : List Nat) (pos : Nat) : Int × Nat :=
  if pos + 20 > pkt.length then (-1, pos)
  else if pos + byteAt pkt pos % 16 * 4 > pkt.length then (-1, pos)
  else ((byteAt pkt (pos + 9) : Int), pos + byteAt pkt pos % 16 * 4)

/-- `parse_ip6hdr` from src/common/parsing_helpers.h: fixed 40-byte
`struct ipv6hdr`; on success advance and return the `nexthdr` field
(byte 6). -/
def parse_ip6hdr (pkt : List Nat) (pos : Nat) : Int × Nat :=
  if pos + 40 > pkt.length then (-1, pos)
  else ((byteAt pkt (pos + 6) : Int), pos + 40)

/-- `parse_icmphdr` from src/common/parsing_helpers.h: fixed 8-byte
`struct icmphdr`; on success advance and return the `type` field (byte 0). -/
def parse_icmphdr (pkt : List Nat) (pos : Nat) : Int × Nat :=
  if pos + 8 > pkt.length then (-1, pos)
  else ((byteAt pkt pos : Int), pos + 8)

/-- `parse_icmp6hdr` from src/common/parsing_helpers.h: fixed 8-byte
`struct icmp6hdr`; on success advance and return the `icmp6_type` field
(byte 0). -/
def parse_icmp6hdr (pkt : List Nat) (pos : Nat) : Int × Nat :=
  if pos + 8 > pkt.length then (-1, pos)
  else ((byteAt pkt pos : Int), pos + 8)

/-- `parse_tcphdr` from src/packet02-rewriting/xdp_prog_kern.c: bounds-check a
fixed 20-byte `struct tcphdr`, advance past it, and rewrite the destination
port to `bpf_htons(bpf_ntohs(dest) - 1)` (16-bit wraparound on 0).
Returns `(result, mutated packet, new cursor)`. -/
def parse_tcphdr (pkt : List Nat) (pos : Nat) : Int × List Nat × Nat :=
  if pos + 20 > pkt.length then (-1, pkt, pos)
  else (0, write16be pkt (pos + 2) ((read16be pkt (pos + 2) + 65535) % 65536), pos + 20)

/-- `parse_udphdr` from src/packet02-rewriting/xdp_prog_kern.c: same as
`parse_tcphdr` with the fixed 8-byte `struct udphdr`. -/
def parse_udphdr (pkt : List Nat) (pos : Nat) : Int × List Nat × Nat :=
  if pos + 8 > pkt.length then (-1, pkt, pos)
  else (0, write16be pkt (pos + 2) ((read16be pkt (pos + 2) + 65535) % 65536), pos + 8)

/-! ## VLAN tag push/pop (the VlanRewriter)

`bpf_xdp_adjust_head` is an external kernel helper: it may fail for
implementation-specific reasons, and on success it moves the buffer head by
the requested delta (newly gained head-room has unspecified contents).  It is
modelled by a `headOk : Bool` oracle (does the resize succeed?) and, for a
grow, a `junk : List Nat` oracle (the unspecified new head bytes, 4 of them
for one VLAN tag). -/

/-- `vlan_tag_pop` from src/packet-solutions/xdp_prog_kern.c (lines 35-77):
require a VLAN ethertype and one whole `vlan_hdr` after the 14-byte Ethernet
header; save the VLAN id (`bpf_ntohs(vlh->h_vlan_TCI)`), the encapsulated
ethertype bytes and a copy of the Ethernet header; shrink the head by 4; after
re-validating that an Ethernet header still fits, copy the saved header back
and overwrite its ethertype with the encapsulated one.  Returns the VLAN id,
or -1 on failure, together with the resulting buffer. -/
def vlan_tag_pop (pkt : List Nat) (headOk : Bool) : Int × List Nat :=
  if ¬ proto_is_vlan (read16be pkt 12) then (-1, pkt)
  else if pkt.length < 18 then (-1, pkt)
  else
    let vlid := read16be pkt 14
    let p16 := byteAt pkt 16
    let p17 := byteAt pkt 17
    let eth_cpy := pkt.take 14
    if ¬ headOk then (-1, pkt)
    else
      let pkt1 := pkt.drop 4
      if pkt1.length < 14 then (-1, pkt1)
      else
        let pkt2 := writeBytes pkt1 0 eth_cpy
        ((vlid : Int), writeBytes pkt2 12 [p16, p17])

/-- `vlan_tag_pop` from src/packet02-rewriting/xdp_prog_kern.c (lines 99-137):
same operation, except that the saved Ethernet header's ethertype is replaced
by the encapsulated one *before* the resize and the whole saved header is
copied back in one store. -/
def vlan_tag_pop_p02 (pkt : List Nat) (headOk : Bool) : Int × List Nat :=
  if ¬ proto_is_vlan (read16be pkt 12) then (-1, pkt)
  else if pkt.length < 18 then (-1, pkt)
  else
    let vlid := read16be pkt 14
    let eth_cpy := writeBytes (pkt.take 14) 12 [byteAt pkt 16, byteAt pkt 17]
    if ¬ headOk then (-1, pkt)
    else
      let pkt1 := pkt.drop 4
      if pkt1.length < 14 then (-1, pkt1)
      else ((vlid : Int), writeBytes pkt1 0 eth_cpy)

/-- `vlan_tag_push` from src/packet-solutions/xdp_prog_kern.c (lines 82-121):
save a copy of the Ethernet header, grow the head by one `vlan_hdr` (4 bytes),
re-validate that the Ethernet header fits, copy it back, re-validate that the
tag fits, write the tag (`h_vlan_TCI = bpf_htons(vlid)`, encapsulated proto =
the current ethertype) and set the Ethernet ethertype to
`bpf_htons(ETH_P_8021Q)`.  Returns 0 on success, -1 on failure, together with
the resulting buffer. -/
def vlan_tag_push (pkt : List Nat) (vlid : Nat) (headOk : Bool) (junk : List Nat) :
    Int × List Nat :=
  let eth_cpy := pkt.take 14
  if ¬ headOk then (-1, pkt)
  else
    let pkt1 := junk ++ pkt
    if pkt1.length < 14 then (-1, pkt1)
    else
      let pkt2 := writeBytes pkt1 0 eth_cpy
      if pkt2.length < 18 then (-1, pkt2)
      else
        let pkt3 := write16be pkt2 14 vlid
        let pkt4 := writeBytes pkt3 16 [byteAt pkt3 12, byteAt pkt3 13]
        (0, writeBytes pkt4 12 [0x81, 0x00])

/-- `vlan_tag_push` from src/packet02-rewriting/xdp_prog_kern.c (lines
142-180): same operation, but refuses to push when the frame already carries a
VLAN ethertype. -/
def vlan_tag_push_p02 (pkt : List Nat) (vlid : Nat) (headOk : Bool) (junk : List Nat) :
    Int × List Nat :=
  if proto_is_vlan (read16be pkt 12) then (-1, pkt)
  else vlan_tag_push pkt vlid headOk junk

/-! ## ChecksumUpdater -/

/-- `csum16_add` from src/packet-solutions/xdp_prog_kern.c (lines 172-176):
`csum += addend; return csum + (csum < addend);` in 16-bit arithmetic
(the final `+1` cannot overflow since `s < addend ≤ 0xFFFF`). -/
def csum16_add (csum addend : Nat) : Nat :=
  let s := (csum + addend) % 65536
  s + (if s < addend then 1 else 0)

/-- 16-bit bitwise complement `~v` of a `__u16` value. -/
def cmpl16 (v : Nat) : Nat := 65535 - v

/-- The standard full one's-complement checksum over a list of 16-bit words
(the checksum field itself excluded / taken as zero): end-around-carry sum of
all the words, complemented. -/
def checksum_full (ws : List Nat) : Nat := cmpl16 (ws.foldl csum16_add 0)

/-- The incremental checksum update of src/packet-solutions/xdp_prog_kern.c
line 232: `~(csum16_add(csum16_add(~checksum, ~m0), m1))` for a single 16-bit
word changing from `m0` to `m1`. -/
def checksum_incr (csum m0 m1 : Nat) : Nat :=
  cmpl16 (csum16_add (csum16_add (cmpl16 csum) (cmpl16 m0)) m1)

/-! ## Verdicts, external collaborators, and the packet programs -/

/-- The XDP verdict taxonomy: `XDP_PASS`, `XDP_DROP`, `XDP_TX`, and a
successful `bpf_redirect_map` through the `tx_port` devmap to a resolved
egress interface. -/
inductive Verdict where
  | Pass
  | Drop
  | Tx
  | Redirect (ifindex : Nat)
deriving DecidableEq, Repr

/-- Modelled from the spec: the external statistics collector
(`record(verdict) -> void`, `xdp_stats_record_action` in the repository's
common headers, outside src/).  It receives the final action, records it once,
and hands the action back as the program's return value.  The second component
is the trace of recorded verdicts produced by the one invocation. -/
def xdp_stats_record_action (action : Verdict) : Verdict × List Verdict :=
  (action, [action])

/-- The `struct bpf_fib_lookup` key filled in by `xdp_router_func`: address
family, TOS, flow info, transport protocol, ports (never populated), total
length, source/destination address bytes, and the ingress interface index.
Fields the program leaves at their `{}` zero-initialisation stay 0. -/
structure bpf_fib_lookup_params where
  family : Nat
  tos : Nat
  flowinfo : Nat
  l4_protocol : Nat
  sport : Nat
  dport : Nat
  tot_len : Nat
  src : List Nat
  dst : List Nat
  ifindex : Nat
deriving DecidableEq, Repr

/-- Modelled from the spec: the outcome set of the external FIB resolver
(`bpf_fib_lookup` return codes `BPF_FIB_LKUP_RET_*`); on success the resolver
also yields the egress interface index and next-hop source/destination MAC
bytes (the `ifindex`/`smac`/`dmac` fields it writes back into the key). -/
inductive ForwardingOutcome where
  | Success (egress_if : Nat) (smac dmac : List Nat)
  | Blackhole
  | Unreachable
  | Prohibited
  | NotForwarded
  | ForwardingDisabled
  | UnsupportedEncap
  | NoNeighbor
  | FragmentationNeeded
deriving DecidableEq, Repr

/-- A FIB resolver: an oracle from lookup keys to outcomes. -/
def FibResolver : Type := bpf_fib_lookup_params → ForwardingOutcome

/-- `ip_decrease_ttl` from src/packet-solutions/xdp_prog_kern.c (lines
307-313), on a little-endian host: load the 16-bit checksum field (offset
`ip+10`) as a host `__u16`, add `bpf_htons(0x0100)` (= 0x0001 on a
little-endian host) in 32-bit arithmetic, store back
`check + (check >= 0xFFFF)` truncated to 16 bits, then decrement the TTL byte
(offset `ip+8`, 8-bit wraparound). -/
def ip_decrease_ttl (pkt : List Nat) (ip : Nat) : List Nat :=
  let check := read16le pkt (ip + 10) + 1
  let p1 := write16le pkt (ip + 10) ((check + (if check ≥ 65535 then 1 else 0)) % 65536)
  writeBytes p1 (ip + 8) [(byteAt p1 (ip + 8) + 255) % 256]

/-- The IPv4 `struct bpf_fib_lookup` key built by `xdp_router_func` (lines
348-355, 381): family `AF_INET` (2), TOS, protocol, `bpf_ntohs(tot_len)`,
source/destination address bytes, ingress ifindex; everything else zero.
Offsets are relative to the IPv4 header at byte 14. -/
def router_fib_params_v4 (pkt : List Nat) (ingress : Nat) : bpf_fib_lookup_params :=
  { family := 2, tos := byteAt pkt 15, flowinfo := 0,
    l4_protocol := byteAt pkt 23, sport := 0, dport := 0,
    tot_len := read16be pkt 16,
    src := (pkt.drop 26).take 4, dst := (pkt.drop 30).take 4,
    ifindex := ingress }

/-- The IPv6 `struct bpf_fib_lookup` key built by `xdp_router_func` (lines
369-376, 381): family `AF_INET6` (10), flow info (first 32-bit word of the
IPv6 header masked with `IPV6_FLOWINFO_MASK`, a byte-wise mask keeping the low
28 network-order bits), `nexthdr`, `bpf_ntohs(payload_len)`,
source/destination address bytes, ingress ifindex. -/
def router_fib_params_v6 (pkt : List Nat) (ingress : Nat) : bpf_fib_lookup_params :=
  { family := 10, tos := 0, flowinfo := read32be pkt 14 % 268435456,
    l4_protocol := byteAt pkt 20, sport := 0, dport := 0,
    tot_len := read16be pkt 18,
    src := (pkt.drop 22).take 16, dst := (pkt.drop 38).take 16,
    ifindex := ingress }

/-- `xdp_router_func` from src/packet-solutions/xdp_prog_kern.c (lines
316-411).  Returns the final verdict, the resulting packet buffer, and the
trace of statistics-collector invocations.  The raw bounds checks of the C
(`data + nh_off > data_end`, `iph + 1 > data_end`, `ip6h + 1 > data_end`)
become length checks at 14, 34 and 54 bytes; `ttl`/`hop_limit` live at bytes
22 / 21.  The `bpf_fib_lookup` call is the `fib` oracle, and on `Success` the
TTL/hop-limit is decremented, the destination and source MACs are overwritten
with the resolver's `dmac`/`smac`, and the verdict is a redirect to the
resolver's egress interface. -/
def xdp_router_func (pkt : List Nat) (ingress : Nat) (fib : FibResolver) :
    Verdict × List Nat × List Verdict :=
  let finish := fun (a : Verdict) (p : List Nat) =>
    let r := xdp_stats_record_action a
    (r.1, p, r.2)
  if pkt.length < 14 then finish Verdict.Drop pkt
  else
    let h_proto := read16be pkt 12
    if h_proto = 0x0800 then
      if pkt.length < 34 then finish Verdict.Drop pkt
      else if byteAt pkt 22 ≤ 1 then finish Verdict.Pass pkt
      else
        match fib (router_fib_params_v4 pkt ingress) with
        | .Success eif smac dmac =>
            finish (Verdict.Redirect eif)
              (writeBytes (writeBytes (ip_decrease_ttl pkt 14) 0 dmac) 6 smac)
        | .Blackhole => finish Verdict.Drop pkt
        | .Unreachable => finish Verdict.Drop pkt
        | .Prohibited => finish Verdict.Drop pkt
        | .NotForwarded => finish Verdict.Pass pkt
        | .ForwardingDisabled => finish Verdict.Pass pkt
        | .UnsupportedEncap => finish Verdict.Pass pkt
        | .NoNeighbor => finish Verdict.Pass pkt
        | .FragmentationNeeded => finish Verdict.Pass pkt
    else if h_proto = 0x86DD then
      if pkt.length < 54 then finish Verdict.Drop pkt
      else if byteAt pkt 21 ≤ 1 then finish Verdict.Pass pkt
      else
        match fib (router_fib_params_v6 pkt ingress) with
        | .Success eif smac dmac =>
            finish (Verdict.Redirect eif)
              (writeBytes
                (writeBytes (writeBytes pkt 21 [(byteAt pkt 21 + 255) % 256]) 0 dmac)
                6 smac)
        | .Blackhole => finish Verdict.Drop pkt
        | .Unreachable => finish Verdict.Drop pkt
        | .Prohibited => finish Verdict.Drop pkt
        | .NotForwarded => finish Verdict.Pass pkt
        | .ForwardingDisabled => finish Verdict.Pass pkt
        | .UnsupportedEncap => finish Verdict.Pass pkt
        | .NoNeighbor => finish Verdict.Pass pkt
        | .FragmentationNeeded => finish Verdict.Pass pkt
    else finish Verdict.Pass pkt

/-- `swap_src_dst_mac` from src/packet-solutions/xdp_prog_kern.c: exchange the
6-byte destination (bytes 0-5) and source (bytes 6-11) MAC addresses of the
Ethernet header at offset 0. -/
def swap_src_dst_mac (pkt : List Nat) : List Nat :=
  writeBytes (writeBytes pkt 0 ((pkt.drop 6).take 6)) 6 (pkt.take 6)

/-- `swap_src_dst_ipv4` from src/packet-solutions/xdp_prog_kern.c: exchange
the 4-byte source (`ip+12`) and destination (`ip+16`) addresses of the IPv4
header at offset `ip`. -/
def swap_src_dst_ipv4 (pkt : List Nat) (ip : Nat) : List Nat :=
  writeBytes (writeBytes pkt (ip + 12) ((pkt.drop (ip + 16)).take 4))
    (ip + 16) ((pkt.drop (ip + 12)).take 4)

/-- `swap_src_dst_ipv6` from src/packet-solutions/xdp_prog_kern.c: exchange
the 16-byte source (`ip+8`) and destination (`ip+24`) addresses of the IPv6
header at offset `ip`. -/
def swap_src_dst_ipv6 (pkt : List Nat) (ip : Nat) : List Nat :=
  writeBytes (writeBytes pkt (ip + 8) ((pkt.drop (ip + 24)).take 16))
    (ip + 24) ((pkt.drop (ip + 8)).take 16)

/-- The echo-rewrite tail of `xdp_icmp_echo_func` (src/packet-solutions/
xdp_prog_kern.c lines 225-234), entered once the ICMP type matched: swap the
MAC addresses, load the first 16-bit word of the ICMP header (`m0`, a
little-endian host load), overwrite the `type` byte with the reply type, load
the word again (`m1`), and patch the checksum incrementally; verdict
`XDP_TX`. -/
def icmp_echo_patch (pkt : List Nat) (icmpOff : Nat) (echo_reply : Nat) :
    Verdict × List Nat :=
  let p1 := swap_src_dst_mac pkt
  let m0 := read16le p1 icmpOff
  let p2 := writeBytes p1 icmpOff [echo_reply]
  let m1 := read16le p2 icmpOff
  let ck := read16le p2 (icmpOff + 2)
  (Verdict.Tx, write16le p2 (icmpOff + 2) (cmpl16 (csum16_add (csum16_add (cmpl16 ck) (cmpl16 m0)) m1)))

/-- The ICMP stage of `xdp_icmp_echo_func` (lines 212-234): parse the ICMP
header at the cursor; on an IPv4 echo request (type 8) swap the IPv4
addresses and rewrite to an echo reply (type 0), on an IPv6 echo request
(type 128) swap the IPv6 addresses and rewrite to type 129; anything else
passes unmodified. -/
def icmp_echo_core (pkt : List Nat) (eth_type : Int) (ipOff icmpOff : Nat) :
    Verdict × List Nat :=
  if eth_type = 0x0800 ∧ (parse_icmphdr pkt icmpOff).1 = 8 then
    icmp_echo_patch (swap_src_dst_ipv4 pkt ipOff) icmpOff 0
  else if eth_type = 0x86DD ∧ (parse_icmphdr pkt icmpOff).1 = 128 then
    icmp_echo_patch (swap_src_dst_ipv6 pkt ipOff) icmpOff 129
  else (Verdict.Pass, pkt)

/-- `xdp_icmp_echo_func` from src/packet-solutions/xdp_prog_kern.c (lines
179-238): parse Ethernet, then IPv4 (protocol must be ICMP, 1) or IPv6
(next header must be ICMPv6, 58), then the ICMP stage; every exit goes
through `xdp_stats_record_action` with the final action. -/
def xdp_icmp_echo_func (pkt : List Nat) : Verdict × List Nat × List Verdict :=
  let e := parse_ethhdr pkt 0
  let vres :=
    if e.1 = 0x0800 then
      let ipr := parse_iphdr pkt e.2
      if ipr.1 = 1 then icmp_echo_core pkt 0x0800 e.2 ipr.2 else (Verdict.Pass, pkt)
    else if e.1 = 0x86DD then
      let ipr := parse_ip6hdr pkt e.2
      if ipr.1 = 58 then icmp_echo_core pkt 0x86DD e.2 ipr.2 else (Verdict.Pass, pkt)
    else (Verdict.Pass, pkt)
  let r := xdp_stats_record_action vres.1
  (r.1, vres.2, r.2)

/-- `xdp_vlan_swap_func` from src/packet02-rewriting/xdp_prog_kern.c (lines
185-208; the packet-solutions wrapper is line-for-line the same over its own
pop/push): parse the Ethernet header, then pop the outermost VLAN tag if one
is present, otherwise push a new tag with VLAN id 1; always return `XDP_PASS`
directly, with no statistics-collector call (empty trace). -/
def xdp_vlan_swap_func (pkt : List Nat) (headOk : Bool) (junk : List Nat) :
    Verdict × List Nat × List Verdict :=
  let e := parse_ethhdr pkt 0
  if e.1 < 0 then (Verdict.Pass, pkt, [])
  else if proto_is_vlan (read16be pkt 12) then
    (Verdict.Pass, (vlan_tag_pop_p02 pkt headOk).2, [])
  else (Verdict.Pass, (vlan_tag_push_p02 pkt 1 headOk junk).2, [])

/-- `xdp_port_rewrite_func` from src/packet02-rewriting/xdp_prog_kern.c
(lines 54-94): parse Ethernet, then IPv6 or IPv4, and on TCP (6) / UDP (17)
rewrite the destination port via `parse_tcphdr`/`parse_udphdr`.  When the
ethertype is neither IPv6 nor IPv4 (including a failed Ethernet parse),
control in the C falls through the `if`/`else if` chain straight into the
`parse_tcp:` label, so `parse_tcphdr` runs at the current cursor.  Always
returns `XDP_PASS` directly, with no statistics-collector call. -/
def xdp_port_rewrite_func (pkt : List Nat) : Verdict × List Nat × List Verdict :=
  let e := parse_ethhdr pkt 0
  if e.1 = 0x86DD then
    let ipr := parse_ip6hdr pkt e.2
    if ipr.1 = 6 then (Verdict.Pass, (parse_tcphdr pkt ipr.2).2.1, [])
    else if ipr.1 = 17 then (Verdict.Pass, (parse_udphdr pkt ipr.2).2.1, [])
    else (Verdict.Pass, pkt, [])
  else if e.1 = 0x0800 then
    let ipr := parse_iphdr pkt e.2
    if ipr.1 = 6 then (Verdict.Pass, (parse_tcphdr pkt ipr.2).2.1, [])
    else if ipr.1 = 17 then (Verdict.Pass, (parse_udphdr pkt ipr.2).2.1, [])
    else (Verdict.Pass, pkt, [])
  else (Verdict.Pass, (parse_tcphdr pkt e.2).2.1, [])

/-! ## Supporting lemmas about the buffer model -/

lemma length_writeBytes (pkt src : List Nat) (i : Nat) (h : i + src.length ≤ pkt.length) :
    (writeBytes pkt i src).length = pkt.length := by
  simp only [writeBytes, List.length_append, List.length_take, List.length_drop]
  omega

lemma byteAt_writeBytes_lt (pkt src : List Nat) (i j : Nat) (hj : j < i)
    (hi : i ≤ pkt.length) :
    byteAt (writeBytes pkt i src) j = byteAt pkt j := by
  unfold byteAt writeBytes
  rw [List.append_assoc, List.getD_append _ _ _ _ (by simp; omega)]
  simp [List.getD, List.getElem?_take, hj]

lemma byteAt_writeBytes_ge (pkt src : List Nat) (i j : Nat) (hj : i + src.length ≤ j)
    (hi : i ≤ pkt.length) :
    byteAt (writeBytes pkt i src) j = byteAt pkt j := by
  unfold byteAt writeBytes
  have hlen : (pkt.take i).length = i := by simp; omega
  rw [List.append_assoc,
    List.getD_append_right _ _ _ _ (by rw [hlen]; omega), hlen,
    List.getD_append_right _ _ _ _ (by omega)]
  simp only [List.getD, List.get?_eq_getElem?, List.getElem?_drop]
  congr 2
  omega

lemma byteAt_writeBytes_in (pkt src : List Nat) (i j : Nat) (h1 : i ≤ j)
    (h2 : j < i + src.length) (hi : i ≤ pkt.length) :
    byteAt (writeBytes pkt i src) j = byteAt src (j - i) := by
  unfold byteAt writeBytes
  rw [List.append_assoc,
    List.getD_append_right _ _ _ _ (by simp; omega),
    List.getD_append _ _ _ _ (by simp; omega)]
  congr 1
  simp; omega

lemma vlan_unroll_le (pkt : List Nat) :
    ∀ fuel vlh h, (vlan_unroll pkt fuel vlh h).1 ≤ vlh + 4 * fuel := by
  intro fuel
  induction fuel with
  | zero => intro vlh h; simp [vlan_unroll]
  | succ n ih =>
    intro vlh h
    unfold vlan_unroll
    split
    · split
      · exact le_trans (ih _ _) (by omega)
      · simp
    · simp

lemma vlan_unroll_ge (pkt : List Nat) :
    ∀ fuel vlh h, vlh ≤ (vlan_unroll pkt fuel vlh h).1 := by
  intro fuel
  induction fuel with
  | zero => intro vlh h; simp [vlan_unroll]
  | succ n ih =>
    intro vlh h
    unfold vlan_unroll
    split
    · split
      · exact le_trans (by omega) (ih (vlh + 4) _)
      · simp
    · simp

lemma vlan_unroll_step (pkt : List Nat) (fuel vlh h : Nat)
    (hv : proto_is_vlan h = true) (hb : vlh + 4 ≤ pkt.length) :
    vlan_unroll pkt (fuel + 1) vlh h
      = vlan_unroll pkt fuel (vlh + 4) (read16be pkt (vlh + 2)) := by
  conv_lhs => unfold vlan_unroll
  rw [if_pos hv, if_pos hb]

/-! ## Claims about the parsers: C9, C10, C7 -/

/-- C9: for every buffer whose remaining bytes past the cursor are fewer than
the header's size (fixed size, or the IHL-derived size for IPv4), the
corresponding parser returns the sentinel -1 and leaves the cursor unchanged;
only on success does it advance the cursor and return the next-layer protocol
identifier (a non-negative host-order value). -/
theorem C9_parser_bounds_cursor (pkt : List Nat) (pos : Nat) :
    (pkt.length < pos + 14 → parse_ethhdr pkt pos = (-1, pos)) ∧
    (pkt.length < pos + 20 → parse_iphdr pkt pos = (-1, pos)) ∧
    (pkt.length < pos + byteAt pkt pos % 16 * 4 → parse_iphdr pkt pos = (-1, pos)) ∧
    (pkt.length < pos + 40 → parse_ip6hdr pkt pos = (-1, pos)) ∧
    (pkt.length < pos + 8 → parse_icmphdr pkt pos = (-1, pos)) ∧
    (pos + 20 ≤ pkt.length → pos + byteAt pkt pos % 16 * 4 ≤ pkt.length →
      parse_iphdr pkt pos = ((byteAt pkt (pos + 9) : Int), pos + byteAt pkt pos % 16 * 4)) ∧
    (pos + 40 ≤ pkt.length →
      parse_ip6hdr pkt pos = ((byteAt pkt (pos + 6) : Int), pos + 40)) ∧
    (pos + 8 ≤ pkt.length →
      parse_icmphdr pkt pos = ((byteAt pkt pos : Int), pos + 8)) ∧
    (pos + 14 ≤ pkt.length →
      0 ≤ (parse_ethhdr pkt pos).1 ∧ pos + 14 ≤ (parse_ethhdr pkt pos).2) := by
  refine ⟨fun h => ?_, fun h => ?_, fun h => ?_, fun h => ?_, fun h => ?_,
    fun h h' => ?_, fun h => ?_, fun h => ?_, fun h => ?_⟩
  · unfold parse_ethhdr; rw [if_pos (by omega)]
  · unfold parse_iphdr; rw [if_pos (by omega)]
  · unfold parse_iphdr
    by_cases h20 : pos + 20 > pkt.length
    · rw [if_pos h20]
    · rw [if_neg h20, if_pos (by omega)]
  · unfold parse_ip6hdr; rw [if_pos (by omega)]
  · unfold parse_icmphdr; rw [if_pos (by omega)]
  · unfold parse_iphdr; rw [if_neg (by omega), if_neg (by omega)]
  · unfold parse_ip6hdr; rw [if_neg (by omega)]
  · unfold parse_icmphdr; rw [if_neg (by omega)]
  · unfold parse_ethhdr
    rw [if_neg (by omega)]
    exact ⟨Int.natCast_nonneg _, vlan_unroll_ge pkt VLAN_MAX_DEPTH (pos + 14) _⟩

/-- Witness for C9 at a concrete 10-byte buffer (10 of the 20 IPv4 header
bytes present) and at a concrete full IPv4 header. -/
theorem C9_parser_bounds_cursor_witness :
    parse_iphdr [0x45,0,0,20, 0,0,0,0, 64, 6] 0 = (-1, 0) ∧
    parse_iphdr [0x45,0,0,20, 0,0,0,0, 64, 6, 0,0, 1,2,3,4, 5,6,7,8] 0 = (6, 20) := by
  constructor
  · exact (C9_parser_bounds_cursor [0x45,0,0,20, 0,0,0,0, 64, 6] 0).2.1 (by decide)
  · have h := (C9_parser_bounds_cursor
      [0x45,0,0,20, 0,0,0,0, 64, 6, 0,0, 1,2,3,4, 5,6,7,8] 0).2.2.2.2.2.1
      (by decide) (by decide)
    simpa using h

/-- C10: when at least the fixed 20 bytes fit but the IHL field is smaller
than 5, `parse_iphdr` still succeeds: no minimum-header-length validation is
performed, the cursor advances by exactly `ihl*4` (less than 20) bytes, and
the `protocol` field is returned. -/
theorem C10_parse_iphdr_small_ihl (pkt : List Nat) (pos : Nat)
    (h20 : pos + 20 ≤ pkt.length) (hihl : byteAt pkt pos % 16 < 5) :
    parse_iphdr pkt pos = ((byteAt pkt (pos + 9) : Int), pos + byteAt pkt pos % 16 * 4)
      ∧ byteAt pkt pos % 16 * 4 < 20 := by
  constructor
  · unfold parse_iphdr
    rw [if_neg (by omega), if_neg (by omega)]
  · omega

/-- Witness for C10: an IPv4 first byte of 0x42 (version 4, IHL 2) over a
20-byte buffer: the parse succeeds, advancing by 8 bytes only. -/
theorem C10_parse_iphdr_small_ihl_witness :
    parse_iphdr [0x42,0,0,20, 0,0,0,0, 64, 17, 0,0, 1,2,3,4, 5,6,7,8] 0 = (17, 8) := by
  have h := (C10_parse_iphdr_small_ihl [0x42,0,0,20, 0,0,0,0, 64, 17, 0,0, 1,2,3,4, 5,6,7,8] 0
    (by decide) (by decide)).1
  simpa using h

/-! ## Claim C5: incremental checksum update vs full recomputation -/

lemma csum16_add_lt (a b : Nat) (ha : a < 65536) (hb : b < 65536) :
    csum16_add a b < 65536 := by
  simp only [csum16_add]
  split <;> omega

lemma csum16_add_mod (a b : Nat) (ha : a < 65536) (hb : b < 65536) :
    csum16_add a b % 65535 = (a + b) % 65535 := by
  simp only [csum16_add]
  split <;> omega

lemma csum16_add_eq_zero (a b : Nat) (ha : a < 65536) :
    csum16_add a b = 0 → a = 0 ∧ b = 0 := by
  simp only [csum16_add]
  split <;> omega

lemma foldl_csum_lt (ws : List Nat) :
    ∀ acc, acc < 65536 → (∀ w ∈ ws, w < 65536) →
      ws.foldl csum16_add acc < 65536 := by
  induction ws with
  | nil => intro acc h _; simpa using h
  | cons w ws ih =>
    intro acc h hws
    simp only [List.foldl_cons]
    exact ih _ (csum16_add_lt _ _ h (hws w (by simp))) (fun x hx => hws x (by simp [hx]))

lemma foldl_csum_mod (ws : List Nat) :
    ∀ acc, acc < 65536 → (∀ w ∈ ws, w < 65536) →
      ws.foldl csum16_add acc % 65535 = (acc + ws.sum) % 65535 := by
  induction ws with
  | nil => intro acc _ _; simp
  | cons w ws ih =>
    intro acc hacc hws
    simp only [List.foldl_cons, List.sum_cons]
    have hw : w < 65536 := hws w (by simp)
    rw [ih (csum16_add acc w) (csum16_add_lt _ _ hacc hw) (fun x hx => hws x (by simp [hx]))]
    have h := csum16_add_mod acc w hacc hw
    omega

lemma foldl_csum_zero (ws : List Nat) :
    ∀ acc, acc < 65536 → (∀ w ∈ ws, w < 65536) →
      ws.foldl csum16_add acc = 0 → acc = 0 ∧ ∀ w ∈ ws, w = 0 := by
  induction ws with
  | nil => intro acc _ _ h; exact ⟨by simpa using h, by simp⟩
  | cons w ws ih =>
    intro acc hacc hws h
    simp only [List.foldl_cons] at h
    have hw : w < 65536 := hws w (by simp)
    have hstep : csum16_add acc w < 65536 := csum16_add_lt _ _ hacc hw
    obtain ⟨h0, hall⟩ := ih _ hstep (fun x hx => hws x (by simp [hx])) h
    obtain ⟨ha, hb⟩ := csum16_add_eq_zero acc w hacc h0
    refine ⟨ha, fun x hx => ?_⟩
    rcases List.mem_cons.mp hx with rfl | hx
    · exact hb
    · exact hall x hx

/-- Counterexample to C5 as stated: for the header consisting of the single
16-bit word `m0 = 0xFFFF` (the very value the claim highlights) replaced by
`m1 = 0`, the incremental update yields 0x0000 while a full recomputation
over the mutated header yields 0xFFFF — the two one's-complement
representations of zero differ as 16-bit values. -/
theorem C5_checksum_counterexample :
    checksum_incr (checksum_full [0xFFFF]) 0xFFFF 0 = 0x0000 ∧
    checksum_full [0] = 0xFFFF ∧
    checksum_incr (checksum_full [0xFFFF]) 0xFFFF 0 ≠ checksum_full [0] := by decide

/-- C5 (amended): for all 16-bit old/new field values `m0`/`m1` and all
16-bit surrounding header words, when the checksum input is the full
one's-complement checksum of the original words, the incremental update
`~(csum16_add(csum16_add(~csum, ~m0), m1))` equals the full recomputation
over the mutated words — provided at least one mutated word is nonzero.  (In
the excluded all-zero case the two sides are 0x0000 and 0xFFFF, the two
one's-complement representations of zero; end-around-carry inputs such as
`m0 = 0xFFFF` with a nonzero remaining word are covered.) -/
theorem C5_checksum_incremental (ws1 ws2 : List Nat) (m0 m1 : Nat)
    (hws1 : ∀ w ∈ ws1, w < 65536) (hws2 : ∀ w ∈ ws2, w < 65536)
    (hm0 : m0 < 65536) (hm1 : m1 < 65536)
    (hnz : ∃ w ∈ ws1 ++ m1 :: ws2, w ≠ 0) :
    checksum_incr (checksum_full (ws1 ++ m0 :: ws2)) m0 m1
      = checksum_full (ws1 ++ m1 :: ws2) := by
  have hb0 : ∀ w ∈ ws1 ++ m0 :: ws2, w < 65536 := by
    intro w hw
    rcases List.mem_append.mp hw with h | h
    · exact hws1 w h
    · rcases List.mem_cons.mp h with rfl | h
      · exact hm0
      · exact hws2 w h
  have hb1 : ∀ w ∈ ws1 ++ m1 :: ws2, w < 65536 := by
    intro w hw
    rcases List.mem_append.mp hw with h | h
    · exact hws1 w h
    · rcases List.mem_cons.mp h with rfl | h
      · exact hm1
      · exact hws2 w h
  have hSlt := foldl_csum_lt (ws1 ++ m0 :: ws2) 0 (by omega) hb0
  have hS'lt := foldl_csum_lt (ws1 ++ m1 :: ws2) 0 (by omega) hb1
  have hsum0 : (ws1 ++ m0 :: ws2).sum = ws1.sum + (m0 + ws2.sum) := by simp
  have hsum1 : (ws1 ++ m1 :: ws2).sum = ws1.sum + (m1 + ws2.sum) := by simp
  have hSmod := foldl_csum_mod (ws1 ++ m0 :: ws2) 0 (by omega) hb0
  have hS'mod := foldl_csum_mod (ws1 ++ m1 :: ws2) 0 (by omega) hb1
  have hzero0 : (ws1 ++ m0 :: ws2).foldl csum16_add 0 = 0 → m0 = 0 := fun h =>
    (foldl_csum_zero _ 0 (by omega) hb0 h).2 m0 (by simp)
  have hzero1 : (ws1 ++ m1 :: ws2).foldl csum16_add 0 ≠ 0 := by
    intro h
    obtain ⟨w, hw, hwne⟩ := hnz
    exact hwne ((foldl_csum_zero _ 0 (by omega) hb1 h).2 w hw)
  unfold checksum_incr checksum_full cmpl16
  have e1 : 65535 - (65535 - (ws1 ++ m0 :: ws2).foldl csum16_add 0)
      = (ws1 ++ m0 :: ws2).foldl csum16_add 0 := by omega
  rw [e1]
  have hA := csum16_add_lt ((ws1 ++ m0 :: ws2).foldl csum16_add 0) (65535 - m0) hSlt (by omega)
  have hAmod := csum16_add_mod ((ws1 ++ m0 :: ws2).foldl csum16_add 0) (65535 - m0) hSlt (by omega)
  have hXlt := csum16_add_lt (csum16_add ((ws1 ++ m0 :: ws2).foldl csum16_add 0) (65535 - m0)) m1 hA hm1
  have hXmod := csum16_add_mod (csum16_add ((ws1 ++ m0 :: ws2).foldl csum16_add 0) (65535 - m0)) m1 hA hm1
  have hXne : csum16_add (csum16_add ((ws1 ++ m0 :: ws2).foldl csum16_add 0) (65535 - m0)) m1 ≠ 0 := by
    intro h
    obtain ⟨hz, -⟩ := csum16_add_eq_zero _ m1 hA h
    obtain ⟨hSz, hmz⟩ := csum16_add_eq_zero _ (65535 - m0) hSlt hz
    have := hzero0 hSz
    omega
  have hX_eq : csum16_add (csum16_add ((ws1 ++ m0 :: ws2).foldl csum16_add 0) (65535 - m0)) m1
      = (ws1 ++ m1 :: ws2).foldl csum16_add 0 := by omega
  rw [hX_eq]

/-- Witness for C5 at a concrete two-word header: replacing the word 0x0800
(an ICMP echo-request type/code word) by 0 next to a nonzero sequence word. -/
theorem C5_checksum_incremental_witness :
    checksum_incr (checksum_full [0x0800, 0x1234]) 0x0800 0
      = checksum_full [0, 0x1234] := by
  have h := C5_checksum_incremental [] [0x1234] 0x0800 0
    (by decide) (by decide) (by decide) (by decide) (by decide)
  simpa using h

/-! ## Claims C8 and C4: VLAN rewriter atomicity and round trips -/

lemma exists_eq_of_length12 (a : List Nat) (ha : a.length = 12) :
    ∃ b0 b1 b2 b3 b4 b5 b6 b7 b8 b9 b10 b11,
      a = [b0, b1, b2, b3, b4, b5, b6, b7, b8, b9, b10, b11] := by
  rcases a with _ | ⟨b0, a⟩; · simp at ha
  rcases a with _ | ⟨b1, a⟩; · simp at ha
  rcases a with _ | ⟨b2, a⟩; · simp at ha
  rcases a with _ | ⟨b3, a⟩; · simp at ha
  rcases a with _ | ⟨b4, a⟩; · simp at ha
  rcases a with _ | ⟨b5, a⟩; · simp at ha
  rcases a with _ | ⟨b6, a⟩; · simp at ha
  rcases a with _ | ⟨b7, a⟩; · simp at ha
  rcases a with _ | ⟨b8, a⟩; · simp at ha
  rcases a with _ | ⟨b9, a⟩; · simp at ha
  rcases a with _ | ⟨b10, a⟩; · simp at ha
  rcases a with _ | ⟨b11, a⟩; · simp at ha
  rcases a with _ | ⟨b12, a⟩
  · exact ⟨b0, b1, b2, b3, b4, b5, b6, b7, b8, b9, b10, b11, rfl⟩
  · simp at ha

lemma exists_eq_of_length4 (a : List Nat) (ha : a.length = 4) :
    ∃ b0 b1 b2 b3, a = [b0, b1, b2, b3] := by
  rcases a with _ | ⟨b0, a⟩; · simp at ha
  rcases a with _ | ⟨b1, a⟩; · simp at ha
  rcases a with _ | ⟨b2, a⟩; · simp at ha
  rcases a with _ | ⟨b3, a⟩; · simp at ha
  rcases a with _ | ⟨b4, a⟩
  · exact ⟨b0, b1, b2, b3, rfl⟩
  · simp at ha

/-- C8: every failing VLAN push or pop attempt on an Ethernet-fronted buffer
(at least the 14 Ethernet-header bytes present) leaves the buffer exactly as
it was: failed preconditions and a failed head resize return before any
mutation, and the post-resize re-validations can never fail under these
preconditions, so no partially rewritten header state is ever visible.
Covers both the packet-solutions and the packet02-rewriting versions. -/
theorem C8_failed_mutation_leaves_buffer (pkt junk : List Nat) (vlid : Nat) (headOk : Bool)
    (h14 : 14 ≤ pkt.length) (hj : junk.length = 4) :
    ((vlan_tag_pop pkt headOk).1 = -1 → (vlan_tag_pop pkt headOk).2 = pkt) ∧
    ((vlan_tag_pop_p02 pkt headOk).1 = -1 → (vlan_tag_pop_p02 pkt headOk).2 = pkt) ∧
    ((vlan_tag_push pkt vlid headOk junk).1 = -1 →
      (vlan_tag_push pkt vlid headOk junk).2 = pkt) ∧
    ((vlan_tag_push_p02 pkt vlid headOk junk).1 = -1 →
      (vlan_tag_push_p02 pkt vlid headOk junk).2 = pkt) := by
  have hL1 : (junk ++ pkt).length = pkt.length + 4 := by simp [hj]; omega
  have hL2 : (writeBytes (junk ++ pkt) 0 (pkt.take 14)).length = pkt.length + 4 := by
    rw [length_writeBytes _ _ _ (by simp [hj] <;> omega)]
    exact hL1
  have hpush : (vlan_tag_push pkt vlid headOk junk).1 = -1 →
      (vlan_tag_push pkt vlid headOk junk).2 = pkt := by
    unfold vlan_tag_push
    simp only []
    split
    · intro _; rfl
    · split
      · intro _; exfalso; omega
      · split
        · intro _; exfalso; omega
        · intro h; exact absurd h (by simp)
  refine ⟨?_, ?_, hpush, ?_⟩
  · unfold vlan_tag_pop
    simp only []
    split
    · intro _; rfl
    · split
      · intro _; rfl
      · split
        · intro _; rfl
        · split
          · intro _
            exfalso
            simp_all only [List.length_drop, not_lt]
            omega
          · intro h; exact absurd h (by simp)
  · unfold vlan_tag_pop_p02
    simp only []
    split
    · intro _; rfl
    · split
      · intro _; rfl
      · split
        · intro _; rfl
        · split
          · intro _
            exfalso
            simp_all only [List.length_drop, not_lt]
            omega
          · intro h; exact absurd h (by simp)
  · unfold vlan_tag_push_p02
    split
    · intro _; rfl
    · exact hpush

/-- Witness for C8: a valid untagged 14-byte frame; a pop attempt fails (no
VLAN tag) and a push attempt with a failing head resize fails, each leaving
the buffer unchanged. -/
theorem C8_failed_mutation_leaves_buffer_witness :
    (vlan_tag_pop [0,1,2,3,4,5,6,7,8,9,10,11,8,0] true).2
        = [0,1,2,3,4,5,6,7,8,9,10,11,8,0] ∧
    (vlan_tag_push [0,1,2,3,4,5,6,7,8,9,10,11,8,0] 7 false [9,9,9,9]).2
        = [0,1,2,3,4,5,6,7,8,9,10,11,8,0] := by
  have h := C8_failed_mutation_leaves_buffer [0,1,2,3,4,5,6,7,8,9,10,11,8,0] [9,9,9,9]
    7 true (by decide) (by decide)
  have h' := C8_failed_mutation_leaves_buffer [0,1,2,3,4,5,6,7,8,9,10,11,8,0] [9,9,9,9]
    7 false (by decide) (by decide)
  exact ⟨h.1 (by decide), h'.2.2.1 (by decide)⟩

/-- Counterexample to C4 as stated: an 802.1ad (ethertype 0x88A8)
single-tagged frame; popping its tag and pushing the returned VLAN id back
yields a frame whose outer ethertype is 0x8100, not the original 0x88A8, so
the original frame bytes are not restored. -/
theorem C4_counterexample_8021ad :
    (vlan_tag_push
        (vlan_tag_pop [0,0,0,0,0,0, 0,0,0,0,0,0, 0x88,0xA8, 0,42, 8,0] true).2
        (vlan_tag_pop [0,0,0,0,0,0, 0,0,0,0,0,0, 0x88,0xA8, 0,42, 8,0] true).1.toNat
        true [0,0,0,0]).2
      ≠ [0,0,0,0,0,0, 0,0,0,0,0,0, 0x88,0xA8, 0,42, 8,0] := by decide

/-- C4 (amended): on a well-formed Ethernet-fronted frame (12 MAC bytes `a`,
ethertype bytes, payload `r`), with any 16-bit VLAN id:
`vlan_tag_push` then `vlan_tag_pop` restores the original frame bytes exactly
and pop returns the pushed id; `vlan_tag_pop` then `vlan_tag_push` with the
returned id restores the original frame bytes exactly **when the outer tag's
ethertype is 0x8100 (802.1Q)**; when it is 0x88A8 (802.1ad), pop extracts the
same id and payload but the re-push necessarily writes outer ethertype
0x8100, so only the 0x8100 variant of the frame is reproduced. -/
lemma vlan_push_untagged_eq (a r junk : List Nat) (p q vlid : Nat)
    (ha : a.length = 12) (hj : junk.length = 4) :
    vlan_tag_push (a ++ p :: q :: r) vlid true junk
      = (0, a ++ 0x81 :: 0x00 :: (vlid % 65536 / 256) :: (vlid % 256) :: p :: q :: r) := by
  obtain ⟨a0,a1,a2,a3,a4,a5,a6,a7,a8,a9,a10,a11,rfl⟩ := exists_eq_of_length12 a ha
  obtain ⟨j0,j1,j2,j3,rfl⟩ := exists_eq_of_length4 junk hj
  simp [vlan_tag_push, writeBytes, write16be, byteAt, read16be, proto_is_vlan]
  rw [if_neg (by omega), if_neg (by omega)]

lemma vlan_pop_tagged_eq (a r : List Nat) (x y u1 u2 e1 e2 : Nat)
    (ha : a.length = 12) (hvl : proto_is_vlan (x * 256 + y) = true) :
    vlan_tag_pop (a ++ x :: y :: u1 :: u2 :: e1 :: e2 :: r) true
      = (((u1 * 256 + u2 : Nat) : Int), a ++ e1 :: e2 :: r) := by
  obtain ⟨a0,a1,a2,a3,a4,a5,a6,a7,a8,a9,a10,a11,rfl⟩ := exists_eq_of_length12 a ha
  simp [vlan_tag_pop, writeBytes, byteAt, read16be, hvl]
  repeat rw [if_neg (by omega)]

theorem C4_push_pop_roundtrip (a r junk : List Nat) (p q t1 t2 q1 q2 vlid : Nat)
    (ha : a.length = 12) (hj : junk.length = 4) (hv : vlid < 65536)
    (ht1 : t1 < 256) (ht2 : t2 < 256)
    (huntagged : proto_is_vlan (p * 256 + q) = false) :
    (vlan_tag_push (a ++ p :: q :: r) vlid true junk
        = (0, a ++ 0x81 :: 0x00 :: (vlid / 256) :: (vlid % 256) :: p :: q :: r) ∧
      vlan_tag_pop (a ++ 0x81 :: 0x00 :: (vlid / 256) :: (vlid % 256) :: p :: q :: r) true
        = ((vlid : Int), a ++ p :: q :: r)) ∧
    (vlan_tag_pop (a ++ 0x81 :: 0x00 :: t1 :: t2 :: q1 :: q2 :: r) true
        = (((t1 * 256 + t2 : Nat) : Int), a ++ q1 :: q2 :: r) ∧
      vlan_tag_push (a ++ q1 :: q2 :: r) (t1 * 256 + t2) true junk
        = (0, a ++ 0x81 :: 0x00 :: t1 :: t2 :: q1 :: q2 :: r)) ∧
    (vlan_tag_pop (a ++ 0x88 :: 0xA8 :: t1 :: t2 :: q1 :: q2 :: r) true
        = (((t1 * 256 + t2 : Nat) : Int), a ++ q1 :: q2 :: r)) := by
  have hv' : vlid % 65536 = vlid := Nat.mod_eq_of_lt hv
  have hdm : vlid / 256 * 256 + vlid % 256 = vlid := by omega
  have hts : (t1 * 256 + t2) % 65536 = t1 * 256 + t2 := Nat.mod_eq_of_lt (by omega)
  have htd : (t1 * 256 + t2) / 256 = t1 := by omega
  have htm : (t1 * 256 + t2) % 256 = t2 := by omega
  refine ⟨⟨?_, ?_⟩, ⟨?_, ?_⟩, ?_⟩
  · rw [vlan_push_untagged_eq a r junk p q vlid ha hj, hv']
  · rw [vlan_pop_tagged_eq a r 0x81 0x00 (vlid / 256) (vlid % 256) p q ha (by decide), hdm]
  · exact vlan_pop_tagged_eq a r 0x81 0x00 t1 t2 q1 q2 ha (by decide)
  · rw [vlan_push_untagged_eq a r junk q1 q2 (t1 * 256 + t2) ha hj, hts, htd, htm]
  · exact vlan_pop_tagged_eq a r 0x88 0xA8 t1 t2 q1 q2 ha (by decide)

/-- Witness for C4: pushing VLAN id 42 onto a concrete untagged IPv4 frame
and popping it back restores the frame and returns 42; popping a concrete
0x8100-tagged frame and re-pushing the returned id restores it. -/
theorem C4_push_pop_roundtrip_witness :
    vlan_tag_pop
        (vlan_tag_push [1,2,3,4,5,6, 7,8,9,10,11,12, 8,0, 77] 42 true [0,0,0,0]).2 true
      = (42, [1,2,3,4,5,6, 7,8,9,10,11,12, 8,0, 77]) ∧
    (vlan_tag_push
        (vlan_tag_pop [1,2,3,4,5,6, 7,8,9,10,11,12, 0x81,0, 3,42, 8,0, 77] true).2
        (3 * 256 + 42) true [0,0,0,0]).2
      = [1,2,3,4,5,6, 7,8,9,10,11,12, 0x81,0, 3,42, 8,0, 77] := by
  have h := C4_push_pop_roundtrip [1,2,3,4,5,6, 7,8,9,10,11,12] [77] [0,0,0,0]
    8 0 3 42 8 0 42 (by decide) (by decide) (by decide) (by decide) (by decide) (by decide)
  have h1 := h.1.1
  have h2 := h.1.2
  have h3 := h.2.1.1
  have h4 := h.2.1.2
  simp only [List.cons_append, List.nil_append] at h1 h2 h3 h4
  constructor
  · rw [h1]
    simpa using h2
  · rw [h3]
    norm_num at h4 ⊢
    rw [h4]

/-- C7: stacked-VLAN unrolling in `parse_ethhdr` iterates at most
`VLAN_MAX_DEPTH = 5` times, so the cursor never moves past
`pos + 14 + 5*4`; and when (at least) six tags are present the cursor ends
exactly after the fifth tag and the returned protocol identifier is the last
value read (the fifth tag's encapsulated ethertype, which may itself still be
a VLAN tag ethertype). -/
theorem C7_vlan_unroll_bounded (pkt : List Nat) (pos : Nat) :
    (parse_ethhdr pkt pos).2 ≤ pos + 14 + VLAN_MAX_DEPTH * 4 ∧
    (pos + 34 ≤ pkt.length →
      proto_is_vlan (read16be pkt (pos + 12)) = true →
      proto_is_vlan (read16be pkt (pos + 16)) = true →
      proto_is_vlan (read16be pkt (pos + 20)) = true →
      proto_is_vlan (read16be pkt (pos + 24)) = true →
      proto_is_vlan (read16be pkt (pos + 28)) = true →
      parse_ethhdr pkt pos = ((read16be pkt (pos + 32) : Int), pos + 34)) := by
  constructor
  · unfold parse_ethhdr
    split
    · simp [VLAN_MAX_DEPTH]; omega
    · have h := vlan_unroll_le pkt VLAN_MAX_DEPTH (pos + 14) (read16be pkt (pos + 12))
      simp only [VLAN_MAX_DEPTH] at h ⊢
      omega
  · intro hlen h0 h1 h2 h3 h4
    unfold parse_ethhdr
    rw [if_neg (by omega)]
    have e5 : VLAN_MAX_DEPTH = 4 + 1 := rfl
    rw [e5, vlan_unroll_step pkt 4 (pos + 14) _ h0 (by omega)]
    have a1 : pos + 14 + 4 = pos + 18 := by omega
    have a1' : pos + 14 + 2 = pos + 16 := by omega
    rw [a1, a1', show (4 : Nat) = 3 + 1 from rfl,
      vlan_unroll_step pkt 3 (pos + 18) _ h1 (by omega)]
    have a2 : pos + 18 + 4 = pos + 22 := by omega
    have a2' : pos + 18 + 2 = pos + 20 := by omega
    rw [a2, a2', show (3 : Nat) = 2 + 1 from rfl,
      vlan_unroll_step pkt 2 (pos + 22) _ h2 (by omega)]
    have a3 : pos + 22 + 4 = pos + 26 := by omega
    have a3' : pos + 22 + 2 = pos + 24 := by omega
    rw [a3, a3', show (2 : Nat) = 1 + 1 from rfl,
      vlan_unroll_step pkt 1 (pos + 26) _ h3 (by omega)]
    have a4 : pos + 26 + 4 = pos + 30 := by omega
    have a4' : pos + 26 + 2 = pos + 28 := by omega
    rw [a4, a4', show (1 : Nat) = 0 + 1 from rfl,
      vlan_unroll_step pkt 0 (pos + 30) _ h4 (by omega)]
    have a5 : pos + 30 + 4 = pos + 34 := by omega
    have a5' : pos + 30 + 2 = pos + 32 := by omega
    rw [a5, a5']
    simp [vlan_unroll]

/-- Witness for C7: a frame carrying six stacked VLAN tags; `parse_ethhdr`
stops after the fifth tag (cursor 34) and returns the still-VLAN ethertype
0x8100. -/
theorem C7_vlan_unroll_bounded_witness :
    parse_ethhdr
      [0,0,0,0,0,0, 0,0,0,0,0,0, 0x81,0,
       0,1, 0x81,0, 0,2, 0x81,0, 0,3, 0x81,0, 0,4, 0x81,0,
       0,5, 0x81,0, 0,6, 8,0] 0 = (0x8100, 34) := by
  have h := (C7_vlan_unroll_bounded
    [0,0,0,0,0,0, 0,0,0,0,0,0, 0x81,0,
     0,1, 0x81,0, 0,2, 0x81,0, 0,3, 0x81,0, 0,4, 0x81,0,
     0,5, 0x81,0, 0,6, 8,0] 0).2
    (by decide) (by decide) (by decide) (by decide) (by decide) (by decide)
  simpa using h

/-! ## Claims C3, C1, C6, C2: the packet programs -/

/-- Counterexample to C3 as stated: `xdp_port_rewrite_func` returns its final
verdict (`Pass`, on a valid 14-byte Ethernet frame) with an *empty*
statistics-collector trace — it never invokes the collector, so "every packet
program invokes the statistics collector exactly once" is false. -/
theorem C3_collector_counterexample :
    ¬ ((xdp_port_rewrite_func (List.replicate 14 0)).2.2
        = [(xdp_port_rewrite_func (List.replicate 14 0)).1]) := by decide

/-- C3 (amended): the packet programs that end in `xdp_stats_record_action`
(`xdp_router_func`, `xdp_icmp_echo_func`) invoke the collector exactly once
per packet, at the end, with the final verdict; but `xdp_vlan_swap_func` and
`xdp_port_rewrite_func` return `XDP_PASS` directly on every path and never
invoke the collector. -/
theorem C3_collector_invocations (pkt junk : List Nat) (ingress : Nat)
    (fib : FibResolver) (headOk : Bool) :
    (xdp_router_func pkt ingress fib).2.2 = [(xdp_router_func pkt ingress fib).1] ∧
    (xdp_icmp_echo_func pkt).2.2 = [(xdp_icmp_echo_func pkt).1] ∧
    (xdp_vlan_swap_func pkt headOk junk).2.2 = [] ∧
    (xdp_vlan_swap_func pkt headOk junk).1 = Verdict.Pass ∧
    (xdp_port_rewrite_func pkt).2.2 = [] ∧
    (xdp_port_rewrite_func pkt).1 = Verdict.Pass := by
  refine ⟨?_, ?_, ?_, ?_, ?_, ?_⟩
  · unfold xdp_router_func xdp_stats_record_action
    simp only []
    repeat' split
    all_goals rfl
  · unfold xdp_icmp_echo_func xdp_stats_record_action
    simp only []
    repeat' split
    all_goals rfl
  · unfold xdp_vlan_swap_func
    simp only []
    repeat' split
    all_goals rfl
  · unfold xdp_vlan_swap_func
    simp only []
    repeat' split
    all_goals rfl
  · unfold xdp_port_rewrite_func
    simp only []
    repeat' split
    all_goals rfl
  · unfold xdp_port_rewrite_func
    simp only []
    repeat' split
    all_goals rfl

/-- Counterexample to C1 as stated: a frame with a truncated (empty) Ethernet
header reaching the router program resolves to `Drop`, not `Pass`. -/
theorem C1_truncated_router_counterexample :
    (xdp_router_func [] 0 (fun _ => ForwardingOutcome.NotForwarded)).1 = Verdict.Drop ∧
    Verdict.Drop ≠ Verdict.Pass := by decide

/-- C1 (amended): a truncated header is never fatal to the surrounding
process, but the verdict depends on the program: in `xdp_router_func` a
truncated Ethernet or IPv4/IPv6 header resolves to `Drop`, while in the other
packet programs (`xdp_icmp_echo_func`, `xdp_vlan_swap_func`,
`xdp_port_rewrite_func`) a truncated Ethernet header — and, for the echo
program, a truncated IPv4 header — resolves to `Pass` with the buffer
unchanged. -/
theorem C1_truncated_header_verdicts (pkt junk : List Nat) (ingress : Nat)
    (fib : FibResolver) (headOk : Bool) :
    (pkt.length < 14 →
      xdp_router_func pkt ingress fib = (Verdict.Drop, pkt, [Verdict.Drop]) ∧
      xdp_icmp_echo_func pkt = (Verdict.Pass, pkt, [Verdict.Pass]) ∧
      xdp_vlan_swap_func pkt headOk junk = (Verdict.Pass, pkt, []) ∧
      xdp_port_rewrite_func pkt = (Verdict.Pass, pkt, [])) ∧
    (14 ≤ pkt.length → read16be pkt 12 = 0x0800 → pkt.length < 34 →
      xdp_router_func pkt ingress fib = (Verdict.Drop, pkt, [Verdict.Drop])) ∧
    (14 ≤ pkt.length → read16be pkt 12 = 0x86DD → pkt.length < 54 →
      xdp_router_func pkt ingress fib = (Verdict.Drop, pkt, [Verdict.Drop])) ∧
    ((parse_ethhdr pkt 0).1 = 0x0800 → (parse_iphdr pkt (parse_ethhdr pkt 0).2).1 = -1 →
      xdp_icmp_echo_func pkt = (Verdict.Pass, pkt, [Verdict.Pass])) := by
  refine ⟨fun h14 => ⟨?_, ?_, ?_, ?_⟩, fun h14 hp h34 => ?_, fun h14 hp h54 => ?_,
    fun hEth hIp => ?_⟩
  · unfold xdp_router_func xdp_stats_record_action
    simp only []
    rw [if_pos h14]
  · have hE : parse_ethhdr pkt 0 = (-1, 0) := by
      unfold parse_ethhdr; rw [if_pos (by omega)]
    simp [xdp_icmp_echo_func, hE, xdp_stats_record_action]
  · have hE : parse_ethhdr pkt 0 = (-1, 0) := by
      unfold parse_ethhdr; rw [if_pos (by omega)]
    simp [xdp_vlan_swap_func, hE]
  · have hE : parse_ethhdr pkt 0 = (-1, 0) := by
      unfold parse_ethhdr; rw [if_pos (by omega)]
    simp [xdp_port_rewrite_func, hE, parse_tcphdr,
      show (0 : Nat) + 20 > pkt.length by omega]
  · unfold xdp_router_func xdp_stats_record_action
    simp only []
    rw [if_neg (by omega), if_pos ?_, if_pos (by omega)]
    rw [hp]
  · unfold xdp_router_func xdp_stats_record_action
    simp only []
    rw [if_neg (by omega), if_neg ?_, if_pos ?_, if_pos (by omega)]
    · rw [hp]
    · rw [hp]; decide
  · simp [xdp_icmp_echo_func, hEth, hIp, xdp_stats_record_action]

lemma length_writeBytes2 (pkt : List Nat) (i x y : Nat) (h : i + 2 ≤ pkt.length) :
    (writeBytes pkt i [x, y]).length = pkt.length :=
  length_writeBytes _ _ _ (by simp; omega)

lemma length_writeBytes1 (pkt : List Nat) (i x : Nat) (h : i + 1 ≤ pkt.length) :
    (writeBytes pkt i [x]).length = pkt.length :=
  length_writeBytes _ _ _ (by simp; omega)

lemma length_write16le (pkt : List Nat) (i v : Nat) (h : i + 2 ≤ pkt.length) :
    (write16le pkt i v).length = pkt.length := by
  unfold write16le
  exact length_writeBytes2 _ _ _ _ h

lemma byteAt_write16le_lt (pkt : List Nat) (i j v : Nat) (h : j < i) (hi : i ≤ pkt.length) :
    byteAt (write16le pkt i v) j = byteAt pkt j := by
  unfold write16le
  exact byteAt_writeBytes_lt _ _ _ _ h hi

lemma length_ip_decrease_ttl (pkt : List Nat) (ip : Nat) (h : ip + 12 ≤ pkt.length) :
    (ip_decrease_ttl pkt ip).length = pkt.length := by
  unfold ip_decrease_ttl
  simp only []
  rw [length_writeBytes1 _ _ _ (by rw [length_write16le _ _ _ (by omega)]; omega),
    length_write16le _ _ _ (by omega)]

lemma byteAt_ip_decrease_ttl (pkt : List Nat) (ip : Nat) (h : ip + 12 ≤ pkt.length) :
    byteAt (ip_decrease_ttl pkt ip) (ip + 8) = (byteAt pkt (ip + 8) + 255) % 256 := by
  unfold ip_decrease_ttl
  simp only []
  rw [byteAt_writeBytes_in _ _ _ _ (le_refl _) (by simp)
    (by rw [length_write16le _ _ _ (by omega)]; omega)]
  rw [byteAt_write16le_lt _ _ _ _ (by omega) (by omega)]
  simp [byteAt]

/-- C6: an IPv4 TTL (or IPv6 hop limit) of at most 1 reaching the forwarding
engine always yields `Pass` with the packet unchanged, before any resolver
call: the result does not depend on the FIB resolver oracle at all. -/
theorem C6_ttl_exhausted_pass_no_fib (pkt : List Nat) (ingress : Nat) (f g : FibResolver) :
    (14 ≤ pkt.length → read16be pkt 12 = 0x0800 → 34 ≤ pkt.length → byteAt pkt 22 ≤ 1 →
      xdp_router_func pkt ingress f = (Verdict.Pass, pkt, [Verdict.Pass]) ∧
      xdp_router_func pkt ingress f = xdp_router_func pkt ingress g) ∧
    (14 ≤ pkt.length → read16be pkt 12 = 0x86DD → 54 ≤ pkt.length → byteAt pkt 21 ≤ 1 →
      xdp_router_func pkt ingress f = (Verdict.Pass, pkt, [Verdict.Pass]) ∧
      xdp_router_func pkt ingress f = xdp_router_func pkt ingress g) := by
  have key4 : ∀ (h : FibResolver), 14 ≤ pkt.length → read16be pkt 12 = 0x0800 →
      34 ≤ pkt.length → byteAt pkt 22 ≤ 1 →
      xdp_router_func pkt ingress h = (Verdict.Pass, pkt, [Verdict.Pass]) := by
    intro h h14 hp h34 httl
    unfold xdp_router_func xdp_stats_record_action
    simp only []
    rw [if_neg (by omega), hp]
    norm_num
    rw [if_neg (by omega), if_pos httl]
  have key6 : ∀ (h : FibResolver), 14 ≤ pkt.length → read16be pkt 12 = 0x86DD →
      54 ≤ pkt.length → byteAt pkt 21 ≤ 1 →
      xdp_router_func pkt ingress h = (Verdict.Pass, pkt, [Verdict.Pass]) := by
    intro h h14 hp h54 hhop
    unfold xdp_router_func xdp_stats_record_action
    simp only []
    rw [if_neg (by omega), hp]
    norm_num
    rw [if_neg (by omega), if_pos hhop]
  exact ⟨fun h14 hp h34 httl =>
      ⟨key4 f h14 hp h34 httl, (key4 f h14 hp h34 httl).trans (key4 g h14 hp h34 httl).symm⟩,
    fun h14 hp h54 hhop =>
      ⟨key6 f h14 hp h54 hhop, (key6 f h14 hp h54 hhop).trans (key6 g h14 hp h54 hhop).symm⟩⟩

/-- Witness for C6: a concrete TTL=1 IPv4 packet under two resolvers that
disagree everywhere (constant Blackhole vs constant Success): both yield
`Pass` with the packet unchanged. -/
theorem C6_ttl_exhausted_pass_no_fib_witness :
    xdp_router_func
        [0,0,0,0,0,0, 0,0,0,0,0,0, 8,0,
         0x45,0,0,20, 0,0,0,0, 1, 1, 0,0, 10,0,0,1, 10,0,0,2] 7
        (fun _ => ForwardingOutcome.Blackhole)
      = (Verdict.Pass,
         [0,0,0,0,0,0, 0,0,0,0,0,0, 8,0,
          0x45,0,0,20, 0,0,0,0, 1, 1, 0,0, 10,0,0,1, 10,0,0,2],
         [Verdict.Pass]) ∧
    xdp_router_func
        [0,0,0,0,0,0, 0,0,0,0,0,0, 8,0,
         0x45,0,0,20, 0,0,0,0, 1, 1, 0,0, 10,0,0,1, 10,0,0,2] 7
        (fun _ => ForwardingOutcome.Blackhole)
      = xdp_router_func
          [0,0,0,0,0,0, 0,0,0,0,0,0, 8,0,
           0x45,0,0,20, 0,0,0,0, 1, 1, 0,0, 10,0,0,1, 10,0,0,2] 7
          (fun _ => ForwardingOutcome.Success 3 [1,1,1,1,1,1] [2,2,2,2,2,2]) := by
  exact ((C6_ttl_exhausted_pass_no_fib
    [0,0,0,0,0,0, 0,0,0,0,0,0, 8,0,
     0x45,0,0,20, 0,0,0,0, 1, 1, 0,0, 10,0,0,1, 10,0,0,2] 7
    (fun _ => ForwardingOutcome.Blackhole)
    (fun _ => ForwardingOutcome.Success 3 [1,1,1,1,1,1] [2,2,2,2,2,2])).1
    (by decide) (by decide) (by decide) (by decide))

lemma router_v4_lookup (pkt : List Nat) (ingress : Nat) (fib : FibResolver)
    (h14 : 14 ≤ pkt.length) (hp : read16be pkt 12 = 0x0800) (h34 : 34 ≤ pkt.length)
    (httl : 1 < byteAt pkt 22) :
    xdp_router_func pkt ingress fib =
      match fib (router_fib_params_v4 pkt ingress) with
      | .Success eif smac dmac =>
          (Verdict.Redirect eif,
           writeBytes (writeBytes (ip_decrease_ttl pkt 14) 0 dmac) 6 smac,
           [Verdict.Redirect eif])
      | .Blackhole => (Verdict.Drop, pkt, [Verdict.Drop])
      | .Unreachable => (Verdict.Drop, pkt, [Verdict.Drop])
      | .Prohibited => (Verdict.Drop, pkt, [Verdict.Drop])
      | .NotForwarded => (Verdict.Pass, pkt, [Verdict.Pass])
      | .ForwardingDisabled => (Verdict.Pass, pkt, [Verdict.Pass])
      | .UnsupportedEncap => (Verdict.Pass, pkt, [Verdict.Pass])
      | .NoNeighbor => (Verdict.Pass, pkt, [Verdict.Pass])
      | .FragmentationNeeded => (Verdict.Pass, pkt, [Verdict.Pass]) := by
  unfold xdp_router_func xdp_stats_record_action
  simp only []
  rw [if_neg (by omega), hp]
  norm_num
  rw [if_neg (by omega), if_neg (by omega)]

lemma router_v6_lookup (pkt : List Nat) (ingress : Nat) (fib : FibResolver)
    (h14 : 14 ≤ pkt.length) (hp : read16be pkt 12 = 0x86DD) (h54 : 54 ≤ pkt.length)
    (hhop : 1 < byteAt pkt 21) :
    xdp_router_func pkt ingress fib =
      match fib (router_fib_params_v6 pkt ingress) with
      | .Success eif smac dmac =>
          (Verdict.Redirect eif,
           writeBytes
             (writeBytes (writeBytes pkt 21 [(byteAt pkt 21 + 255) % 256]) 0 dmac) 6 smac,
           [Verdict.Redirect eif])
      | .Blackhole => (Verdict.Drop, pkt, [Verdict.Drop])
      | .Unreachable => (Verdict.Drop, pkt, [Verdict.Drop])
      | .Prohibited => (Verdict.Drop, pkt, [Verdict.Drop])
      | .NotForwarded => (Verdict.Pass, pkt, [Verdict.Pass])
      | .ForwardingDisabled => (Verdict.Pass, pkt, [Verdict.Pass])
      | .UnsupportedEncap => (Verdict.Pass, pkt, [Verdict.Pass])
      | .NoNeighbor => (Verdict.Pass, pkt, [Verdict.Pass])
      | .FragmentationNeeded => (Verdict.Pass, pkt, [Verdict.Pass]) := by
  unfold xdp_router_func xdp_stats_record_action
  simp only []
  rw [if_neg (by omega), hp]
  norm_num
  rw [if_neg (by omega), if_neg (by omega)]

lemma mac_rewrite_take6 (A dmac smac : List Nat) (hd : dmac.length = 6) (hs : smac.length = 6)
    (hA : 34 ≤ A.length) :
    (writeBytes (writeBytes A 0 dmac) 6 smac).take 6 = dmac ∧
    ((writeBytes (writeBytes A 0 dmac) 6 smac).drop 6).take 6 = smac ∧
    byteAt (writeBytes (writeBytes A 0 dmac) 6 smac) 22 = byteAt A 22 := by
  have hB : writeBytes A 0 dmac = dmac ++ A.drop 6 := by
    simp [writeBytes, hd]
  have hBtake : (writeBytes A 0 dmac).take 6 = dmac := by
    rw [hB, ← hd, List.take_left]
  have hBlen : (writeBytes A 0 dmac).length = A.length :=
    length_writeBytes _ _ _ (by omega)
  have houter : writeBytes (writeBytes A 0 dmac) 6 smac
      = (writeBytes A 0 dmac).take 6 ++ smac ++ (writeBytes A 0 dmac).drop (6 + smac.length) :=
    rfl
  have hC : writeBytes (writeBytes A 0 dmac) 6 smac
      = dmac ++ (smac ++ (writeBytes A 0 dmac).drop 12) := by
    rw [houter, hBtake, hs, List.append_assoc]
  refine ⟨?_, ?_, ?_⟩
  · rw [hC]; exact List.take_left' hd
  · rw [hC, List.drop_left' hd]; exact List.take_left' hs
  · rw [byteAt_writeBytes_ge _ _ _ _ (by simp [hs]) (by omega),
      byteAt_writeBytes_ge _ _ _ _ (by simp [hd]) (by omega)]

/-- C2: once an IPv4 (TTL > 1) or IPv6 (hop limit > 1) packet reaches the FIB
lookup, the outcome-to-verdict mapping is total over the outcome set:
`Success` yields `Redirect(egress_if)` and only after the TTL/hop-limit byte
has been decremented by one and the destination/source MAC bytes have been
rewritten from the outcome; `Blackhole`, `Unreachable` and `Prohibited` yield
`Drop`; the remaining five outcomes (`NotForwarded`, `ForwardingDisabled`,
`UnsupportedEncap`, `NoNeighbor`, `FragmentationNeeded`) yield `Pass`; no
outcome is unhandled. -/
theorem C2_fib_outcome_to_verdict (pkt : List Nat) (ingress : Nat) (fib : FibResolver) :
    (14 ≤ pkt.length → read16be pkt 12 = 0x0800 → 34 ≤ pkt.length →
      1 < byteAt pkt 22 → byteAt pkt 22 ≤ 255 →
      (∀ eif smac dmac, smac.length = 6 → dmac.length = 6 →
        fib (router_fib_params_v4 pkt ingress) = ForwardingOutcome.Success eif smac dmac →
        (xdp_router_func pkt ingress fib).1 = Verdict.Redirect eif ∧
        (xdp_router_func pkt ingress fib).2.1.take 6 = dmac ∧
        ((xdp_router_func pkt ingress fib).2.1.drop 6).take 6 = smac ∧
        byteAt (xdp_router_func pkt ingress fib).2.1 22 = byteAt pkt 22 - 1) ∧
      (fib (router_fib_params_v4 pkt ingress) = ForwardingOutcome.Blackhole ∨
       fib (router_fib_params_v4 pkt ingress) = ForwardingOutcome.Unreachable ∨
       fib (router_fib_params_v4 pkt ingress) = ForwardingOutcome.Prohibited →
        xdp_router_func pkt ingress fib = (Verdict.Drop, pkt, [Verdict.Drop])) ∧
      (fib (router_fib_params_v4 pkt ingress) = ForwardingOutcome.NotForwarded ∨
       fib (router_fib_params_v4 pkt ingress) = ForwardingOutcome.ForwardingDisabled ∨
       fib (router_fib_params_v4 pkt ingress) = ForwardingOutcome.UnsupportedEncap ∨
       fib (router_fib_params_v4 pkt ingress) = ForwardingOutcome.NoNeighbor ∨
       fib (router_fib_params_v4 pkt ingress) = ForwardingOutcome.FragmentationNeeded →
        xdp_router_func pkt ingress fib = (Verdict.Pass, pkt, [Verdict.Pass]))) ∧
    (14 ≤ pkt.length → read16be pkt 12 = 0x86DD → 54 ≤ pkt.length →
      1 < byteAt pkt 21 → byteAt pkt 21 ≤ 255 →
      (∀ eif smac dmac, smac.length = 6 → dmac.length = 6 →
        fib (router_fib_params_v6 pkt ingress) = ForwardingOutcome.Success eif smac dmac →
        (xdp_router_func pkt ingress fib).1 = Verdict.Redirect eif ∧
        (xdp_router_func pkt ingress fib).2.1.take 6 = dmac ∧
        ((xdp_router_func pkt ingress fib).2.1.drop 6).take 6 = smac ∧
        byteAt (xdp_router_func pkt ingress fib).2.1 21 = byteAt pkt 21 - 1) ∧
      (fib (router_fib_params_v6 pkt ingress) = ForwardingOutcome.Blackhole ∨
       fib (router_fib_params_v6 pkt ingress) = ForwardingOutcome.Unreachable ∨
       fib (router_fib_params_v6 pkt ingress) = ForwardingOutcome.Prohibited →
        xdp_router_func pkt ingress fib = (Verdict.Drop, pkt, [Verdict.Drop])) ∧
      (fib (router_fib_params_v6 pkt ingress) = ForwardingOutcome.NotForwarded ∨
       fib (router_fib_params_v6 pkt ingress) = ForwardingOutcome.ForwardingDisabled ∨
       fib (router_fib_params_v6 pkt ingress) = ForwardingOutcome.UnsupportedEncap ∨
       fib (router_fib_params_v6 pkt ingress) = ForwardingOutcome.NoNeighbor ∨
       fib (router_fib_params_v6 pkt ingress) = ForwardingOutcome.FragmentationNeeded →
        xdp_router_func pkt ingress fib = (Verdict.Pass, pkt, [Verdict.Pass]))) := by
  constructor
  · intro h14 hp h34 httl httl255
    have hred := router_v4_lookup pkt ingress fib h14 hp h34 httl
    refine ⟨fun eif smac dmac hs hd hfib => ?_, fun hfib => ?_, fun hfib => ?_⟩
    · rw [hfib] at hred
      have hAlen : 34 ≤ (ip_decrease_ttl pkt 14).length := by
        rw [length_ip_decrease_ttl _ _ (by omega)]; omega
      obtain ⟨ht, hsm, htt⟩ := mac_rewrite_take6 (ip_decrease_ttl pkt 14) dmac smac hd hs hAlen
      rw [hred]
      refine ⟨rfl, ht, hsm, ?_⟩
      have := byteAt_ip_decrease_ttl pkt 14 (by omega)
      simp only [show (14 : Nat) + 8 = 22 from rfl] at this
      rw [htt, this]
      omega
    · rcases hfib with h | h | h <;> (rw [h] at hred; exact hred)
    · rcases hfib with h | h | h | h | h <;> (rw [h] at hred; exact hred)
  · intro h14 hp h54 hhop hhop255
    have hred := router_v6_lookup pkt ingress fib h14 hp h54 hhop
    refine ⟨fun eif smac dmac hs hd hfib => ?_, fun hfib => ?_, fun hfib => ?_⟩
    · rw [hfib] at hred
      have hAlen : (writeBytes pkt 21 [(byteAt pkt 21 + 255) % 256]).length = pkt.length :=
        length_writeBytes1 _ _ _ (by omega)
      have hhop21 : byteAt (writeBytes pkt 21 [(byteAt pkt 21 + 255) % 256]) 21
          = (byteAt pkt 21 + 255) % 256 := by
        rw [byteAt_writeBytes_in _ _ _ _ (le_refl _) (by simp) (by omega)]
        simp [byteAt]
      have hB : writeBytes (writeBytes pkt 21 [(byteAt pkt 21 + 255) % 256]) 0 dmac
          = dmac ++ (writeBytes pkt 21 [(byteAt pkt 21 + 255) % 256]).drop 6 := by
        simp [writeBytes, hd]
      obtain ⟨ht, hsm, -⟩ := mac_rewrite_take6
        (writeBytes pkt 21 [(byteAt pkt 21 + 255) % 256]) dmac smac hd hs (by omega)
      rw [hred]
      refine ⟨rfl, ht, hsm, ?_⟩
      rw [byteAt_writeBytes_ge _ _ _ _ (by simp [hs]) (by rw [length_writeBytes _ _ _ (by simp [hd]; omega)]; omega),
        byteAt_writeBytes_ge _ _ _ _ (by simp [hd]) (by omega), hhop21]
      omega
    · rcases hfib with h | h | h <;> (rw [h] at hred; exact hred)
    · rcases hfib with h | h | h | h | h <;> (rw [h] at hred; exact hred)

/-- Witness for C2: a concrete TTL=64 IPv4 packet under a resolver answering
`Success 5 [1,2,3,4,5,6] [7,8,9,10,11,12]` redirects to interface 5 with the
MACs rewritten and the TTL byte decremented; under a resolver answering
`Blackhole` it is dropped unchanged. -/
theorem C2_fib_outcome_to_verdict_witness :
    (xdp_router_func
        [0,0,0,0,0,0, 0,0,0,0,0,0, 8,0,
         0x45,0,0,20, 0,0,0,0, 64, 6, 0,0, 10,0,0,1, 10,0,0,2] 7
        (fun _ => ForwardingOutcome.Success 5 [1,2,3,4,5,6] [7,8,9,10,11,12])).1
      = Verdict.Redirect 5 ∧
    (xdp_router_func
        [0,0,0,0,0,0, 0,0,0,0,0,0, 8,0,
         0x45,0,0,20, 0,0,0,0, 64, 6, 0,0, 10,0,0,1, 10,0,0,2] 7
        (fun _ => ForwardingOutcome.Success 5 [1,2,3,4,5,6] [7,8,9,10,11,12])).2.1.take 6
      = [7,8,9,10,11,12] ∧
    ((xdp_router_func
        [0,0,0,0,0,0, 0,0,0,0,0,0, 8,0,
         0x45,0,0,20, 0,0,0,0, 64, 6, 0,0, 10,0,0,1, 10,0,0,2] 7
        (fun _ => ForwardingOutcome.Success 5 [1,2,3,4,5,6] [7,8,9,10,11,12])).2.1.drop 6).take 6
      = [1,2,3,4,5,6] ∧
    byteAt (xdp_router_func
        [0,0,0,0,0,0, 0,0,0,0,0,0, 8,0,
         0x45,0,0,20, 0,0,0,0, 64, 6, 0,0, 10,0,0,1, 10,0,0,2] 7
        (fun _ => ForwardingOutcome.Success 5 [1,2,3,4,5,6] [7,8,9,10,11,12])).2.1 22
      = 63 ∧
    xdp_router_func
        [0,0,0,0,0,0, 0,0,0,0,0,0, 8,0,
         0x45,0,0,20, 0,0,0,0, 64, 6, 0,0, 10,0,0,1, 10,0,0,2] 7
        (fun _ => ForwardingOutcome.Blackhole)
      = (Verdict.Drop,
         [0,0,0,0,0,0, 0,0,0,0,0,0, 8,0,
          0x45,0,0,20, 0,0,0,0, 64, 6, 0,0, 10,0,0,1, 10,0,0,2],
         [Verdict.Drop]) := by
  have hS := ((C2_fib_outcome_to_verdict
    [0,0,0,0,0,0, 0,0,0,0,0,0, 8,0,
     0x45,0,0,20, 0,0,0,0, 64, 6, 0,0, 10,0,0,1, 10,0,0,2] 7
    (fun _ => ForwardingOutcome.Success 5 [1,2,3,4,5,6] [7,8,9,10,11,12])).1
    (by decide) (by decide) (by decide) (by decide) (by decide)).1
    5 [1,2,3,4,5,6] [7,8,9,10,11,12] (by decide) (by decide) rfl
  have hD := ((C2_fib_outcome_to_verdict
    [0,0,0,0,0,0, 0,0,0,0,0,0, 8,0,
     0x45,0,0,20, 0,0,0,0, 64, 6, 0,0, 10,0,0,1, 10,0,0,2] 7
    (fun _ => ForwardingOutcome.Blackhole)).1
    (by decide) (by decide) (by decide) (by decide) (by decide)).2.1 (Or.inl rfl)
  refine ⟨hS.1, hS.2.1, hS.2.2.1, ?_, hD⟩
  rw [hS.2.2.2]
  decide

/-- Witness for C1: at a concrete 1-byte frame, the router records `Drop`
while the echo, VLAN-swap and port-rewrite programs resolve to `Pass` with
the buffer unchanged. -/
theorem C1_truncated_header_verdicts_witness :
    xdp_router_func [0] 0 (fun _ => ForwardingOutcome.NotForwarded)
      = (Verdict.Drop, [0], [Verdict.Drop]) ∧
    xdp_icmp_echo_func [0] = (Verdict.Pass, [0], [Verdict.Pass]) ∧
    xdp_vlan_swap_func [0] true [0,0,0,0] = (Verdict.Pass, [0], []) ∧
    xdp_port_rewrite_func [0] = (Verdict.Pass, [0], []) := by
  have h := (C1_truncated_header_verdicts [0] [0,0,0,0] 0
    (fun _ => ForwardingOutcome.NotForwarded) true).1 (by decide)
  exact ⟨h.1, h.2.1, h.2.2.1, h.2.2.2⟩
